import Mathlib

/-
Verification of the slash-command suggestion plugin and the project-board
Editor component.

The suggestion plugin (source file `src/unnamed/part_000`) is a ProseMirror
plugin produced by the function `Suggestion`.  Its pieces are embedded here
as pure Lean functions:

  * `Suggestion.init`             — `state.init()`
  * `Suggestion.apply`            — `state.apply(transaction, prev)`
  * `Suggestion.handleTextInput`  — `props.handleTextInput(view, from, to, text)`
  * `Suggestion.decorations`      — `props.decorations(state)`
  * `Suggestion.viewUpdate`       — `view().update(view, prevState)`

The external ProseMirror transaction is embedded as the record of exactly the
data `apply` consumes: the selection endpoints (`selection.from`,
`selection.to`), the resolved position's depth (`$position.depth`), the
position before its parent node (`$position.before()`), and the document's
`textBetween` function.  Randomness (`Math.random`) is embedded as an
explicit `freshNum` argument, and the DOM as a list of elements carrying
their `data-decoration-id` attribute.

The Editor component (source file `src/components/Editor/index.tsx`)
contributes `Editor.handleDeleteRouteUpdater` (the updater passed to
`setSelectedRouteID` by `handleDeleteRoute`) and the local-storage-backed
splitter-size persistence (`Editor.editorSizes`, `Editor.handleResize`).
-/

namespace Suggestion

/-- The `range` object `{ from, to }` of the plugin state (ProseMirror
document positions).  `from`/`to` are renamed `rFrom`/`rTo` because `from` is
a Lean keyword. -/
structure SRange where
  rFrom : Nat
  rTo : Nat
deriving DecidableEq

/-- The plugin state, mirroring `interface SuggestionPluginState`.  Optional
fields (`range?`, `decorationID?`) and nullable fields (`query`, `text`) are
`Option`s, with `none` standing for `undefined` / `null`. -/
structure SuggestionPluginState where
  active : Bool
  range : Option SRange
  decorationID : Option String
  query : Option String
  text : Option String
  wasCharTyped : Bool
deriving DecidableEq

/-- The data that `apply` reads off a ProseMirror transaction: `selFrom` and
`selTo` are `selection.from` and `selection.to`; `selDepth` is
`selection.$from.depth`; `selBefore` is `selection.$from.before()`;
`textBetween a b` is `selection.$from.doc.textBetween(a, b, '\0', '\0')`. -/
structure Transaction where
  selFrom : Nat
  selTo : Nat
  selDepth : Nat
  selBefore : Nat
  textBetween : Nat → Nat → String

/-- JavaScript whitespace (the `\s` character class) restricted to the ASCII
whitespace characters: space, tab, line feed, carriage return, vertical tab
and form feed. -/
def jsIsSpace (c : Char) : Bool :=
  c = ' ' || c = '\t' || c = '\n' || c = '\x0d' || c = '\x0b' || c = '\x0c'

/-- The match of the regular expression `/(\S+)$/` against `s`: the maximal
non-whitespace suffix of `s`, or `none` when `s` ends in whitespace or is
empty (the regex then fails to match). -/
def lastWordMatch (s : String) : Option String :=
  let w := String.mk ((s.data.reverse.takeWhile (fun c => !jsIsSpace c)).reverse)
  if w = "" then none else some w

/-- The decoration ID minted from the random draw: the source computes
`id_${Math.floor(Math.random() * 0xFFFFFFFF)}`; the drawn number is the
explicit argument `n`. -/
def freshID (n : Nat) : String := "id_" ++ toString n

/-- `textFrom` in `apply`: `0` when the resolved position is a top-level node
(`$position.depth <= 0`), else `$position.before()`. -/
def textFromPos (tr : Transaction) : Nat :=
  if tr.selDepth ≤ 0 then 0 else tr.selBefore

/-- The `text` scanned by `apply`: `doc.textBetween(textFrom, textTo)` with
`textTo = $position.pos = selection.from`. -/
def textBefore (tr : Transaction) : String :=
  tr.textBetween (textFromPos tr) tr.selFrom

/-- The suggestion range computed by `apply` for a regex match `m` of the
scanned text: `{ from: textFrom + text.length - match.length + 1,
to: textFrom + text.length + 1 }`. -/
def matchedRange (tr : Transaction) (m : String) : SRange :=
  { rFrom := textFromPos tr + (textBefore tr).length - m.length + 1
    rTo := textFromPos tr + (textBefore tr).length + 1 }

/-- The decoration ID the activation branch stores:
`prev.decorationID ? prev.decorationID : decorationID` — JavaScript
truthiness, so both a missing ID and the empty string fall back to the
freshly minted ID. -/
def nextDecorationID (prev : SuggestionPluginState) (freshNum : Nat) : String :=
  match prev.decorationID with
  | some d => if d = "" then freshID freshNum else d
  | none => freshID freshNum

/-- The reset at the top of the cursor branch of `apply`: deactivate when the
cursor just left the previous suggestion range
(`prev.range && (selection.from < prev.range.from || selection.from > prev.range.to)`). -/
def leaveRangeCheck (tr : Transaction) (prev : SuggestionPluginState) :
    SuggestionPluginState :=
  match prev.range with
  | some r =>
    if tr.selFrom < r.rFrom ∨ tr.selFrom > r.rTo then { prev with active := false } else prev
  | none => prev

/-- The cursor branch of `apply` (selection is empty): run the
leave-the-range reset, scan the text before the cursor, and activate on the
last non-whitespace word when `allow` accepts its range.  The configured
trigger character plays no part here. -/
def applyCursor (allow : SRange → Bool) (freshNum : Nat)
    (tr : Transaction) (prev : SuggestionPluginState) : SuggestionPluginState :=
  if textBefore tr ≠ "" then
    match lastWordMatch (textBefore tr) with
    | some m =>
      if allow (matchedRange tr m) then
        { leaveRangeCheck tr prev with
          active := true
          decorationID := some (nextDecorationID prev freshNum)
          range := some (matchedRange tr m)
          text := some m
          query := some m }
      else { leaveRangeCheck tr prev with active := false }
    | none => { leaveRangeCheck tr prev with active := false }
  else leaveRangeCheck tr prev

/-- The body of `apply` before the final normalization: inactive when no
character was typed since the last deactivation, the cursor branch when the
selection is empty, inactive when a non-empty selection exists. -/
def applyCore (char : String) (allow : SRange → Bool) (freshNum : Nat)
    (tr : Transaction) (prev : SuggestionPluginState) : SuggestionPluginState :=
  if !prev.wasCharTyped then { prev with active := false }
  else if tr.selFrom = tr.selTo then applyCursor allow freshNum tr prev
  else { prev with active := false }

/-- The final block of `apply`: when the next state is inactive, empty the
range and the rest of the suggestion data. -/
def normalizeInactive (s : SuggestionPluginState) : SuggestionPluginState :=
  if !s.active then
    { s with wasCharTyped := false, decorationID := none, range := none,
             query := none, text := none }
  else s

/-- `state.apply(transaction, prev)` of the plugin.  `char` is the
configured trigger character of `SuggestionOptions` (default "/"); the
source destructures it but its body never reads it.  `allow` is the
configured `allow` predicate and `freshNum` the number drawn by
`Math.random`. -/
def apply (char : String) (allow : SRange → Bool) (freshNum : Nat)
    (tr : Transaction) (prev : SuggestionPluginState) : SuggestionPluginState :=
  normalizeInactive (applyCore char allow freshNum tr prev)

/-- `state.init()` of the plugin. -/
def init : SuggestionPluginState :=
  { active := false, range := none, decorationID := none, query := none,
    text := none, wasCharTyped := false }

/-- `props.handleTextInput`: a non-empty input string marks that a character
was typed (JavaScript truthiness: `if (text) state.wasCharTyped = true`). -/
def handleTextInput (state : SuggestionPluginState) (text : String) :
    SuggestionPluginState :=
  if text ≠ "" then { state with wasCharTyped := true } else state

/-- An inline decoration as built by `Decoration.inline(range.from, range.to,
{ nodeName, class, 'data-decoration-id' })`. -/
structure InlineDecoration where
  dFrom : Nat
  dTo : Nat
  nodeName : String
  className : String
  dataDecorationID : Option String
deriving DecidableEq

/-- `props.decorations(state)`: `null` when the plugin state has no range or
is inactive, otherwise a decoration set with the single inline decoration
over the suggestion range. -/
def decorations (decorationTag decorationClass : String)
    (s : SuggestionPluginState) : Option (List InlineDecoration) :=
  match s.range with
  | none => none
  | some r =>
    if !s.active then none
    else
      some [{ dFrom := r.rFrom, dTo := r.rTo, nodeName := decorationTag,
              className := decorationClass, dataDecorationID := s.decorationID }]

/-- A DOM element carrying a `data-decoration-id` attribute; the embedded
DOM is the list of such elements in document order. -/
structure Element where
  dataDecorationID : String
deriving DecidableEq

/-- `document.querySelector('[data-decoration-id="key"]')` over the embedded
DOM: the first element whose attribute equals `key`. -/
def querySelectorDecoration (dom : List Element) (key : String) : Option Element :=
  dom.find? (fun e => e.dataDecorationID = key)

/-- A JavaScript value read off a plugin-state object: a string, or
`undefined`. -/
inductive JsValue where
  | undef : JsValue
  | str : String → JsValue
deriving DecidableEq

/-- Dynamic property read `state[name]` on a plugin-state object, for the
string-valued optional properties of `SuggestionPluginState`.  Only the
property names declared by the interface are present on the object; reading
any other name — in particular the `decorationId` spelling used in the view
update, which differs from the declared `decorationID` — yields
`undefined`. -/
def jsStringProp (s : SuggestionPluginState) (name : String) : JsValue :=
  if name = "decorationID" then
    match s.decorationID with
    | some d => JsValue.str d
    | none => JsValue.undef
  else JsValue.undef

/-- Template-literal interpolation of a JavaScript value:
`undefined` prints as the string "undefined". -/
def jsValueToString : JsValue → String
  | JsValue.undef => "undefined"
  | JsValue.str s => s

/-- `prev.range.from` / `next.range.from` as read in the view update's
`moved` computation.  The source only evaluates it when the state is active,
where the range is present; an absent range defaults to `0` here. -/
def rangeFromD (s : SuggestionPluginState) : Nat :=
  match s.range with
  | some r => r.rFrom
  | none => 0

/-- `moved` in the view update: both states active and the range start
changed. -/
def movedB (p n : SuggestionPluginState) : Bool :=
  p.active && n.active && decide (rangeFromD p ≠ rangeFromD n)

/-- `started` in the view update. -/
def startedB (p n : SuggestionPluginState) : Bool :=
  !p.active && n.active

/-- `stopped` in the view update. -/
def stoppedB (p n : SuggestionPluginState) : Bool :=
  p.active && !n.active

/-- `changed` in the view update. -/
def changedB (p n : SuggestionPluginState) : Bool :=
  !startedB p n && !stoppedB p n && decide (p.query ≠ n.query)

/-- `handleStart` in the view update. -/
def handleStartB (p n : SuggestionPluginState) : Bool :=
  startedB p n || movedB p n

/-- `handleChange` in the view update. -/
def handleChangeB (p n : SuggestionPluginState) : Bool :=
  changedB p n && !movedB p n

/-- `handleExit` in the view update. -/
def handleExitB (p n : SuggestionPluginState) : Bool :=
  stoppedB p n || movedB p n

/-- The state the props are built from:
`handleExit && !handleStart ? prev : next`. -/
def updateState (p n : SuggestionPluginState) : SuggestionPluginState :=
  if handleExitB p n && !handleStartB p n then p else n

/-- The fields of the `SuggestionProps` record handed to the renderer hooks
that the claims are about.  `clientRectSome` records whether `clientRect` is
a function rather than `null`; the source sets it to a function exactly when
`decorationNode` is non-null. -/
structure HookProps where
  range : Option SRange
  query : Option String
  text : Option String
  decorationNode : Option Element
  clientRectSome : Bool
deriving DecidableEq

/-- The props built by the view update.  The decoration node is looked up by
the dynamic read `state.decorationId` (note the lowercase `d`: the state
interface declares `decorationID`, so the read yields `undefined`, which
interpolates to the selector key "undefined"). -/
def updateProps (dom : List Element) (p n : SuggestionPluginState) : HookProps :=
  let s := updateState p n
  let node := querySelectorDecoration dom
    (jsValueToString (jsStringProp s "decorationId"))
  { range := s.range, query := s.query, text := s.text,
    decorationNode := node, clientRectSome := node.isSome }

/-- A renderer hook of the suggestion plugin. -/
inductive Hook where
  | onExit : Hook
  | onUpdate : Hook
  | onStart : Hook
deriving DecidableEq

/-- `view().update`: the sequence of renderer-hook invocations, in source
order (`onExit`, then `onUpdate`, then `onStart`), each with the props it
receives.  Returns `[]` on the early `return` when no transition is
detected. -/
def viewUpdate (dom : List Element) (p n : SuggestionPluginState) :
    List (Hook × HookProps) :=
  if !handleStartB p n && !handleChangeB p n && !handleExitB p n then []
  else
    (if handleExitB p n then [(Hook.onExit, updateProps dom p n)] else []) ++
    (if handleChangeB p n then [(Hook.onUpdate, updateProps dom p n)] else []) ++
    (if handleStartB p n then [(Hook.onStart, updateProps dom p n)] else [])

/-- States the plugin can actually be in: an active state carries a range, a
non-empty decoration ID, and the typed-character flag.  `init` satisfies
this, and `apply` and `handleTextInput` preserve it (proved below). -/
def goodStateB (s : SuggestionPluginState) : Bool :=
  !s.active ||
    (s.range.isSome &&
      (match s.decorationID with
       | some d => decide (d ≠ "")
       | none => false) &&
      s.wasCharTyped)

end Suggestion

namespace Editor

/-- A route of the project, reduced to the field the Editor component's
deletion handler reads: its `id`. -/
structure Route where
  id : String
deriving DecidableEq

/-- The updater `handleDeleteRoute(id)` passes to `setSelectedRouteID`:
when the currently selected ID `r` equals the deleted `id`, select the first
route of the captured (pre-deletion) route list, or `undefined` when that
list is empty; otherwise the function body falls through and returns
`undefined`. -/
def handleDeleteRouteUpdater (routes : List Route) (id : String)
    (r : Option String) : Option String :=
  if r = some id then
    match routes with
    | [] => none
    | route0 :: _ => some route0.id
  else none

/-- Browser local storage, keyed by string, holding splitter-size lists.
Sizes are percentages; JavaScript numbers are embedded as rationals. -/
abbrev LocalStorage := String → Option (List Rat)

/-- The local-storage key of the splitter sizes. -/
def splitterSizesKey : String := "project-board-splitter-sizes"

/-- `useLocalStorage(key, fallback)` read semantics (usehooks-ts): the stored
value when present, else the fallback. -/
def readLocalStorage (ls : LocalStorage) (key : String)
    (fallback : List Rat) : List Rat :=
  match ls key with
  | some v => v
  | none => fallback

/-- Writing a value through the `useLocalStorage` setter. -/
def writeLocalStorage (ls : LocalStorage) (key : String) (v : List Rat) :
    LocalStorage :=
  fun k => if k = key then some v else ls k

/-- The `sizes` state of the Editor component:
`useLocalStorage('project-board-splitter-sizes', [50, 50])`. -/
def editorSizes (ls : LocalStorage) : List Rat :=
  readLocalStorage ls splitterSizesKey [50, 50]

/-- The `initialSizes` prop the Editor passes to the `Splitter`. -/
def splitterInitialSizes (ls : LocalStorage) : List Rat :=
  editorSizes ls

/-- `handleResize` (the `onResizeFinished` callback): store the new sizes
via `setSizes`, which writes them back under the splitter key. -/
def handleResize (ls : LocalStorage) (newSizes : List Rat) : LocalStorage :=
  writeLocalStorage ls splitterSizesKey newSizes

end Editor

namespace Suggestion

/-- A state is normalized when inactivity implies that all suggestion data
is cleared: no range, no decoration ID, null query and text, and the
typed-character flag reset. -/
def normalizedB (s : SuggestionPluginState) : Bool :=
  s.active ||
    (s.range.isNone && s.decorationID.isNone && s.query.isNone &&
      s.text.isNone && !s.wasCharTyped)

/-- Spec-side reading of "the suggestion became active" between two plugin
states. -/
def becameActive (p n : SuggestionPluginState) : Prop :=
  p.active = false ∧ n.active = true

/-- Spec-side reading of "the suggestion became inactive". -/
def becameInactive (p n : SuggestionPluginState) : Prop :=
  p.active = true ∧ n.active = false

/-- Spec-side reading of "the suggestion moved": both states active with
different range starts. -/
def movedActive (p n : SuggestionPluginState) : Prop :=
  p.active = true ∧ n.active = true ∧
    ∃ rp rn, p.range = some rp ∧ n.range = some rn ∧ rp.rFrom ≠ rn.rFrom

/-- The view update invokes hook `h` (with some props) on the transition
from `p` to `n` under DOM `dom`. -/
def firesHook (dom : List Element) (p n : SuggestionPluginState) (h : Hook) :
    Prop :=
  ∃ pr, (h, pr) ∈ viewUpdate dom p n

/-- `w` begins with the string `c` (used to state that a word begins with
the configured trigger character). -/
def beginsWith (w c : String) : Bool :=
  w.data.take c.data.length = c.data

/-- An `allow` predicate accepting every range (the source default
`allow = () => true`). -/
def allowAll : SRange → Bool := fun _ => true

/-- A state right after a character was typed into an empty suggestion:
`init` with `wasCharTyped` set by `handleTextInput`. -/
def prevC1 : SuggestionPluginState := { init with wasCharTyped := true }

/-- A transaction whose cursor sits at position 4, inside a paragraph
starting at position 1 whose text up to the cursor is "abc". -/
def trC1 : Transaction :=
  { selFrom := 4, selTo := 4, selDepth := 1, selBefore := 1
    textBetween := fun a b => if a = 1 && b = 4 then "abc" else "" }

/-- An active suggestion over the word "abc" at range [2, 5]. -/
def prevC4 : SuggestionPluginState :=
  { active := true, range := some { rFrom := 2, rTo := 5 },
    decorationID := some "id_3", query := some "abc", text := some "abc",
    wasCharTyped := true }

/-- A transaction whose cursor, at position 9, has left the range [2, 5]:
the paragraph text from position 1 to the cursor is "abc defg". -/
def trC4 : Transaction :=
  { selFrom := 9, selTo := 9, selDepth := 1, selBefore := 1
    textBetween := fun a b => if a = 1 && b = 9 then "abc defg" else "" }

/-- An active suggestion over the word "abc" at range [1, 4] with decoration
ID "id_7". -/
def activeState : SuggestionPluginState :=
  { active := true, range := some { rFrom := 1, rTo := 4 },
    decorationID := some "id_7", query := some "abc", text := some "abc",
    wasCharTyped := true }

/-- A DOM holding exactly the decoration element rendered for
`activeState`: its `data-decoration-id` attribute is "id_7". -/
def domC3 : List Element := [{ dataDecorationID := "id_7" }]

end Suggestion

namespace Editor

/-- An empty browser local storage. -/
def lsEmpty : LocalStorage := fun _ => none

end Editor

namespace Suggestion

/-- The normalization step never changes the `active` flag. -/
theorem normalizeInactive_active (s : SuggestionPluginState) :
    (normalizeInactive s).active = s.active := by
  unfold normalizeInactive
  split <;> rfl

/-- Normalization is the identity on active states. -/
theorem normalizeInactive_of_active {s : SuggestionPluginState}
    (h : s.active = true) : normalizeInactive s = s := by
  unfold normalizeInactive
  simp [h]

/-- `apply` is active exactly when its pre-normalization body is. -/
theorem apply_active (char : String) (allow : SRange → Bool) (freshNum : Nat)
    (tr : Transaction) (prev : SuggestionPluginState) :
    (apply char allow freshNum tr prev).active =
      (applyCore char allow freshNum tr prev).active := by
  unfold apply
  exact normalizeInactive_active _

/-- The leave-the-range reset returns either the previous state or the
previous state deactivated. -/
theorem leaveRangeCheck_cases (tr : Transaction) (prev : SuggestionPluginState) :
    leaveRangeCheck tr prev = prev ∨
      leaveRangeCheck tr prev = { prev with active := false } := by
  cases hr : prev.range with
  | none =>
    left
    simp [leaveRangeCheck, hr]
  | some r =>
    by_cases hc : tr.selFrom < r.rFrom ∨ tr.selFrom > r.rTo
    · right
      simp [leaveRangeCheck, hr, hc]
    · left
      simp [leaveRangeCheck, hr, hc]

/-- If the leave-the-range reset yields an active state, it changed
nothing. -/
theorem leaveRangeCheck_active_eq {tr : Transaction}
    {prev : SuggestionPluginState}
    (h : (leaveRangeCheck tr prev).active = true) :
    leaveRangeCheck tr prev = prev := by
  rcases leaveRangeCheck_cases tr prev with heq | heq
  · exact heq
  · rw [heq] at h
    simp at h

/-- An active previous state survives the leave-the-range reset only when
the cursor is still inside its range. -/
theorem leaveRangeCheck_eq_self_bounds {tr : Transaction}
    {prev : SuggestionPluginState} {r : SRange}
    (ha : prev.active = true) (hr : prev.range = some r)
    (h : leaveRangeCheck tr prev = prev) :
    r.rFrom ≤ tr.selFrom ∧ tr.selFrom ≤ r.rTo := by
  by_cases hc : tr.selFrom < r.rFrom ∨ tr.selFrom > r.rTo
  · exfalso
    simp [leaveRangeCheck, hr, hc] at h
    have hfa := congrArg SuggestionPluginState.active h
    simp [ha] at hfa
  · push_neg at hc
    omega

/-- The regex never matches the empty string. -/
theorem lastWordMatch_empty : lastWordMatch "" = none := by decide

end Suggestion

namespace Suggestion

/-- Case analysis of an active `applyCursor` result: either the text before
the cursor ends in a word accepted by `allow` and the suggestion activates
over it, or the text is empty and the previously active state is carried
over unchanged. -/
theorem applyCursor_cases (allow : SRange → Bool) (freshNum : Nat)
    (tr : Transaction) (prev : SuggestionPluginState)
    (h : (applyCursor allow freshNum tr prev).active = true) :
    (∃ w, lastWordMatch (textBefore tr) = some w ∧
       allow (matchedRange tr w) = true ∧
       applyCursor allow freshNum tr prev =
         { leaveRangeCheck tr prev with
           active := true
           decorationID := some (nextDecorationID prev freshNum)
           range := some (matchedRange tr w)
           text := some w
           query := some w })
    ∨ (textBefore tr = "" ∧ leaveRangeCheck tr prev = prev ∧
       prev.active = true ∧
       applyCursor allow freshNum tr prev = prev) := by
  by_cases htxt : textBefore tr = ""
  · right
    have hres : applyCursor allow freshNum tr prev = leaveRangeCheck tr prev := by
      unfold applyCursor
      rw [if_neg (not_not_intro htxt)]
    rw [hres] at h
    have heq := leaveRangeCheck_active_eq h
    rw [heq] at h
    exact ⟨htxt, heq, h, by rw [hres, heq]⟩
  · cases hlw : lastWordMatch (textBefore tr) with
    | none =>
      exfalso
      have hres : applyCursor allow freshNum tr prev =
          { leaveRangeCheck tr prev with active := false } := by
        unfold applyCursor
        rw [if_pos htxt, hlw]
      rw [hres] at h
      simp at h
    | some w =>
      by_cases hal : allow (matchedRange tr w) = true
      · left
        refine ⟨w, rfl, hal, ?_⟩
        unfold applyCursor
        rw [if_pos htxt, hlw]
        simp [hal]
      · exfalso
        have hres : applyCursor allow freshNum tr prev =
            { leaveRangeCheck tr prev with active := false } := by
          unfold applyCursor
          rw [if_pos htxt, hlw]
          simp [hal]
        rw [hres] at h
        simp at h

/-- Case analysis of an active `apply` result: a character had been typed,
the selection is a cursor, and the state either activated over the last
word before the cursor or was carried over on empty text. -/
theorem apply_active_cases (char : String) (allow : SRange → Bool)
    (freshNum : Nat) (tr : Transaction) (prev : SuggestionPluginState)
    (h : (apply char allow freshNum tr prev).active = true) :
    prev.wasCharTyped = true ∧ tr.selFrom = tr.selTo ∧
      ((∃ w, lastWordMatch (textBefore tr) = some w ∧
          allow (matchedRange tr w) = true ∧
          apply char allow freshNum tr prev =
            { leaveRangeCheck tr prev with
              active := true
              decorationID := some (nextDecorationID prev freshNum)
              range := some (matchedRange tr w)
              text := some w
              query := some w })
        ∨ (textBefore tr = "" ∧ leaveRangeCheck tr prev = prev ∧
            prev.active = true ∧
            apply char allow freshNum tr prev = prev)) := by
  have hact : (applyCore char allow freshNum tr prev).active = true := by
    rw [← apply_active]
    exact h
  cases hw : prev.wasCharTyped with
  | false =>
    exfalso
    unfold applyCore at hact
    simp [hw] at hact
  | true =>
    refine ⟨rfl, ?_, ?_⟩
    all_goals by_cases hsel : tr.selFrom = tr.selTo
    · exact hsel
    · exfalso
      unfold applyCore at hact
      simp [hw, hsel] at hact
    · have hcore : applyCore char allow freshNum tr prev =
          applyCursor allow freshNum tr prev := by
        unfold applyCore
        simp [hw, hsel]
      have hcur : (applyCursor allow freshNum tr prev).active = true := by
        rw [← hcore]
        exact hact
      have happly : apply char allow freshNum tr prev =
          applyCursor allow freshNum tr prev := by
        unfold apply
        rw [hcore]
        exact normalizeInactive_of_active hcur
      rcases applyCursor_cases allow freshNum tr prev hcur with
        ⟨w, hlw, hal, hres⟩ | ⟨htxt, heq, ha, hres⟩
      · exact Or.inl ⟨w, hlw, hal, by rw [happly, hres]⟩
      · exact Or.inr ⟨htxt, heq, ha, by rw [happly, hres]⟩
    · exfalso
      unfold applyCore at hact
      simp [hw, hsel] at hact

end Suggestion

namespace Suggestion

/-- A minted decoration ID is never the empty string. -/
theorem freshID_ne_empty (n : Nat) : freshID n ≠ "" := by
  intro h
  have hlen := congrArg String.length h
  rw [freshID, String.length_append] at hlen
  have h3 : "id_".length = 3 := by decide
  have h0 : "".length = 0 := by decide
  rw [h3, h0] at hlen
  omega

/-- The decoration ID stored by the activation branch is never the empty
string. -/
theorem nextDecorationID_ne_empty (prev : SuggestionPluginState)
    (freshNum : Nat) : nextDecorationID prev freshNum ≠ "" := by
  unfold nextDecorationID
  cases hd : prev.decorationID with
  | none => exact freshID_ne_empty freshNum
  | some d =>
    by_cases he : d = ""
    · simp [he]
      exact freshID_ne_empty freshNum
    · simp [he]

/-- An active good state has a range. -/
theorem goodState_range {s : SuggestionPluginState}
    (hg : goodStateB s = true) (ha : s.active = true) :
    ∃ r, s.range = some r := by
  unfold goodStateB at hg
  rw [ha] at hg
  simp at hg
  exact Option.isSome_iff_exists.mp hg.1.1

/-- An active good state has a non-empty decoration ID. -/
theorem goodState_decorationID {s : SuggestionPluginState}
    (hg : goodStateB s = true) (ha : s.active = true) :
    ∃ d, s.decorationID = some d ∧ d ≠ "" := by
  unfold goodStateB at hg
  rw [ha] at hg
  simp at hg
  cases hd : s.decorationID with
  | none =>
    rw [hd] at hg
    simpa using hg.1.2
  | some d =>
    rw [hd] at hg
    refine ⟨d, rfl, ?_⟩
    simpa using hg.1.2

/-- An active good state has the typed-character flag set. -/
theorem goodState_wasCharTyped {s : SuggestionPluginState}
    (hg : goodStateB s = true) (ha : s.active = true) :
    s.wasCharTyped = true := by
  unfold goodStateB at hg
  rw [ha] at hg
  simp at hg
  exact hg.2

/-- An inactive state is good. -/
theorem goodState_of_inactive {s : SuggestionPluginState}
    (h : s.active = false) : goodStateB s = true := by
  unfold goodStateB
  rw [h]
  rfl

/-- The initial plugin state is good. -/
theorem goodState_init : goodStateB init = true := by decide

/-- `apply` preserves goodness of the plugin state. -/
theorem goodState_apply (char : String) (allow : SRange → Bool)
    (freshNum : Nat) (tr : Transaction) (prev : SuggestionPluginState)
    (hg : goodStateB prev = true) :
    goodStateB (apply char allow freshNum tr prev) = true := by
  cases ha : (apply char allow freshNum tr prev).active with
  | false => exact goodState_of_inactive ha
  | true =>
    obtain ⟨hw, hsel, hcases⟩ := apply_active_cases char allow freshNum tr prev ha
    rcases hcases with ⟨w, hlw, hal, hres⟩ | ⟨htxt, heq, hpa, hres⟩
    · rw [hres]
      unfold goodStateB
      rcases leaveRangeCheck_cases tr prev with h1 | h1 <;>
        simp [h1, nextDecorationID_ne_empty, hw]
    · rw [hres]
      exact hg

/-- `handleTextInput` preserves goodness of the plugin state. -/
theorem goodState_handleTextInput (s : SuggestionPluginState) (t : String)
    (hg : goodStateB s = true) :
    goodStateB (handleTextInput s t) = true := by
  unfold handleTextInput
  by_cases ht : t = ""
  · simp [ht]
    exact hg
  · rw [if_pos ht]
    unfold goodStateB at hg ⊢
    cases ha : s.active with
    | false => simp [ha]
    | true =>
      rw [ha] at hg
      simp at hg
      simp [ha, hg.1.1, hg.1.2]

end Suggestion

namespace Suggestion

/-- C7: every state returned by `apply`, and the initial state, is
normalized — inactivity implies the range, decoration ID, query, text and
typed-character flag are all cleared. -/
theorem c7_states_normalized :
    normalizedB init = true ∧
    ∀ (char : String) (allow : SRange → Bool) (freshNum : Nat)
      (tr : Transaction) (prev : SuggestionPluginState),
      normalizedB (apply char allow freshNum tr prev) = true := by
  refine ⟨by decide, ?_⟩
  intro char allow freshNum tr prev
  unfold apply normalizeInactive
  split
  · simp [normalizedB]
  · rename_i h
    simp at h
    simp [normalizedB, h]

/-- C5 (theorem): when no character has been typed since the suggestion was
last inactive, `apply` returns the inactive normalized state regardless of
the transaction; and `handleTextInput` sets the typed-character flag exactly
when the entered text is non-empty. -/
theorem c5_requires_typed_char :
    (∀ (char : String) (allow : SRange → Bool) (freshNum : Nat)
       (tr : Transaction) (prev : SuggestionPluginState),
       prev.wasCharTyped = false →
       apply char allow freshNum tr prev =
         { active := false, range := none, decorationID := none,
           query := none, text := none, wasCharTyped := false }) ∧
    (∀ (s : SuggestionPluginState) (t : String),
       ((handleTextInput s t).wasCharTyped = true ↔
         (s.wasCharTyped = true ∨ t ≠ ""))) := by
  constructor
  · intro char allow freshNum tr prev hw
    unfold apply applyCore normalizeInactive
    simp [hw]
  · intro s t
    unfold handleTextInput
    by_cases ht : t = ""
    · simp [ht]
    · simp [ht]

/-- C5 (witness): on the initial state, whose flag is unset, `apply` returns
the inactive normalized state at a concrete transaction. -/
theorem c5_witness :
    init.wasCharTyped = false ∧
    apply "/" allowAll 0 trC1 init =
      { active := false, range := none, decorationID := none,
        query := none, text := none, wasCharTyped := false } :=
  ⟨rfl, c5_requires_typed_char.1 "/" allowAll 0 trC1 init rfl⟩

/-- C6 (theorem): `decorations` returns `null` when the state is inactive or
has no range, and otherwise exactly one inline decoration spanning the range
with the configured tag and class and the state's decoration ID. -/
theorem c6_decorations_characterization (tag cls : String)
    (s : SuggestionPluginState) :
    ((s.active = false ∨ s.range = none) → decorations tag cls s = none) ∧
    (∀ r, s.active = true → s.range = some r →
       decorations tag cls s =
         some [{ dFrom := r.rFrom, dTo := r.rTo, nodeName := tag,
                 className := cls, dataDecorationID := s.decorationID }]) := by
  constructor
  · rintro (h | h)
    · unfold decorations
      cases hr : s.range
      · rfl
      · simp [h]
    · simp [decorations, h]
  · intro r ha hr
    simp [decorations, hr, ha]

/-- C6 (witness): the characterization evaluated on the inactive initial
state and on a concrete active state. -/
theorem c6_witness :
    decorations "span" "suggestion" init = none ∧
    decorations "span" "suggestion" activeState =
      some [{ dFrom := 1, dTo := 4, nodeName := "span",
              className := "suggestion", dataDecorationID := some "id_7" }] :=
  ⟨(c6_decorations_characterization "span" "suggestion" init).1 (Or.inl rfl),
   (c6_decorations_characterization "span" "suggestion" activeState).2
     { rFrom := 1, rTo := 4 } rfl rfl⟩

end Suggestion

namespace Editor

/-- C9: the selection updater of `handleDeleteRoute(id)` returns the first
route of the pre-deletion list (or `undefined` on an empty list) when the
deleted route was selected, and `undefined` otherwise — so deleting a
non-selected route also clears the selection. -/
theorem c9_delete_route_selection (routes : List Route) (id : String)
    (r : Option String) :
    handleDeleteRouteUpdater routes id r =
      if r = some id then routes.head?.map Route.id else none := by
  unfold handleDeleteRouteUpdater
  by_cases h : r = some id
  · cases routes <;> simp [h]
  · simp [h]

/-- C10 (theorem): the splitter sizes are read from local storage under the
splitter key with default [50, 50], the splitter's initial sizes are exactly
that stored value, and a finished resize writes the new sizes back under the
same key (so a subsequent read returns them). -/
theorem c10_splitter_sizes_persisted (ls : LocalStorage)
    (newSizes : List Rat) :
    (ls splitterSizesKey = none → editorSizes ls = [50, 50]) ∧
    splitterInitialSizes ls = readLocalStorage ls splitterSizesKey [50, 50] ∧
    handleResize ls newSizes splitterSizesKey = some newSizes ∧
    editorSizes (handleResize ls newSizes) = newSizes := by
  refine ⟨?_, rfl, ?_, ?_⟩
  · intro h
    simp [editorSizes, readLocalStorage, h]
  · simp [handleResize, writeLocalStorage]
  · simp [editorSizes, readLocalStorage, handleResize, writeLocalStorage]

/-- C10 (witness): on an empty local storage the default [50, 50] is read,
and a resize to [30, 70] is persisted under the splitter key. -/
theorem c10_witness :
    lsEmpty splitterSizesKey = none ∧
    editorSizes lsEmpty = [50, 50] ∧
    handleResize lsEmpty [30, 70] splitterSizesKey = some [30, 70] :=
  ⟨rfl, (c10_splitter_sizes_persisted lsEmpty [30, 70]).1 rfl,
   (c10_splitter_sizes_persisted lsEmpty [30, 70]).2.2.1⟩

end Editor

namespace Suggestion

/-- C1 (counterexample): with the default trigger character "/", a word
"abc" that does not begin with "/" still activates the suggestion — `apply`
never consults the trigger character. -/
theorem c1_counterexample :
    (apply "/" allowAll 7 trC1 prevC1).active = true ∧
    (apply "/" allowAll 7 trC1 prevC1).query = some "abc" ∧
    lastWordMatch (textBefore trC1) = some "abc" ∧
    beginsWith "abc" "/" = false := by decide

/-- C1 (amended): a state returned by `apply` is active only if a character
was typed, the selection is a cursor, and either the whitespace-delimited
word immediately before the cursor is non-empty — regardless of whether it
begins with the configured trigger character — and accepted by `allow`
(becoming the query), or the text before the cursor is empty and the
already-active suggestion is carried over with the cursor still inside its
range. -/
theorem c1_amended_requires_word (char : String) (allow : SRange → Bool)
    (freshNum : Nat) (tr : Transaction) (prev : SuggestionPluginState)
    (hg : goodStateB prev = true)
    (h : (apply char allow freshNum tr prev).active = true) :
    prev.wasCharTyped = true ∧ tr.selFrom = tr.selTo ∧
      ((∃ w, lastWordMatch (textBefore tr) = some w ∧
          (apply char allow freshNum tr prev).query = some w ∧
          allow (matchedRange tr w) = true)
        ∨ (textBefore tr = "" ∧ prev.active = true ∧
            ∃ r, prev.range = some r ∧ r.rFrom ≤ tr.selFrom ∧
              tr.selFrom ≤ r.rTo)) := by
  obtain ⟨hw, hsel, hcases⟩ := apply_active_cases char allow freshNum tr prev h
  refine ⟨hw, hsel, ?_⟩
  rcases hcases with ⟨w, hlw, hal, hres⟩ | ⟨htxt, heq, hpa, hres⟩
  · left
    refine ⟨w, hlw, ?_, hal⟩
    rw [hres]
  · right
    obtain ⟨r, hr⟩ := goodState_range hg hpa
    obtain ⟨h1, h2⟩ := leaveRangeCheck_eq_self_bounds hpa hr heq
    exact ⟨htxt, hpa, r, hr, h1, h2⟩

/-- C1 (witness): the amended claim evaluated on the counterexample input,
where the word before the cursor is "abc". -/
theorem c1_amended_witness :
    prevC1.wasCharTyped = true ∧ trC1.selFrom = trC1.selTo ∧
      ((∃ w, lastWordMatch (textBefore trC1) = some w ∧
          (apply "/" allowAll 7 trC1 prevC1).query = some w ∧
          allowAll (matchedRange trC1 w) = true)
        ∨ (textBefore trC1 = "" ∧ prevC1.active = true ∧
            ∃ r, prevC1.range = some r ∧ r.rFrom ≤ trC1.selFrom ∧
              trC1.selFrom ≤ r.rTo)) :=
  c1_amended_requires_word "/" allowAll 7 trC1 prevC1 (by decide) (by decide)

/-- C4 (counterexample): the previous state is active over [2, 5], the
transaction's cursor sits at 9 — outside the range — yet the resulting
state is active again, because a new word precedes the cursor. -/
theorem c4_counterexample :
    prevC4.active = true ∧ prevC4.range = some { rFrom := 2, rTo := 5 } ∧
    trC4.selFrom = trC4.selTo ∧ 5 < trC4.selFrom ∧
    (apply "/" allowAll 3 trC4 prevC4).active = true := by decide

/-- C4 (amended): when the cursor leaves the active suggestion's range, the
resulting state is inactive unless the text ending at the new cursor
position itself ends in a non-whitespace word whose range `allow` accepts,
in which case the suggestion immediately re-activates over that word. -/
theorem c4_amended_close_on_leave (char : String) (allow : SRange → Bool)
    (freshNum : Nat) (tr : Transaction) (prev : SuggestionPluginState)
    (r : SRange) (hg : goodStateB prev = true) (ha : prev.active = true)
    (hr : prev.range = some r) (hsel : tr.selFrom = tr.selTo)
    (hout : tr.selFrom < r.rFrom ∨ tr.selFrom > r.rTo) :
    ((apply char allow freshNum tr prev).active = true ↔
      ∃ w, lastWordMatch (textBefore tr) = some w ∧
        allow (matchedRange tr w) = true) := by
  constructor
  · intro h
    obtain ⟨hw, hsel2, hcases⟩ :=
      apply_active_cases char allow freshNum tr prev h
    rcases hcases with ⟨w, hlw, hal, hres⟩ | ⟨htxt, heq, hpa, hres⟩
    · exact ⟨w, hlw, hal⟩
    · exfalso
      obtain ⟨h1, h2⟩ := leaveRangeCheck_eq_self_bounds hpa hr heq
      rcases hout with h3 | h3 <;> omega
  · rintro ⟨w, hlw, hal⟩
    have hw := goodState_wasCharTyped hg ha
    have htxt : textBefore tr ≠ "" := by
      intro he
      rw [he, lastWordMatch_empty] at hlw
      exact Option.noConfusion hlw
    have hcur : applyCursor allow freshNum tr prev =
        { leaveRangeCheck tr prev with
          active := true
          decorationID := some (nextDecorationID prev freshNum)
          range := some (matchedRange tr w)
          text := some w
          query := some w } := by
      unfold applyCursor
      rw [if_pos htxt, hlw]
      simp [hal]
    have hcore : applyCore char allow freshNum tr prev =
        applyCursor allow freshNum tr prev := by
      unfold applyCore
      rw [hw, hsel]
      simp
    rw [apply_active, hcore, hcur]

/-- C4 (witness): the amended claim evaluated on the counterexample input,
where the text before the new cursor position ends in the word "defg". -/
theorem c4_amended_witness :
    ((apply "/" allowAll 3 trC4 prevC4).active = true ↔
      ∃ w, lastWordMatch (textBefore trC4) = some w ∧
        allowAll (matchedRange trC4 w) = true) :=
  c4_amended_close_on_leave "/" allowAll 3 trC4 prevC4
    { rFrom := 2, rTo := 5 } (by decide) (by decide) (by decide)
    (by decide) (by decide)

/-- C8 (theorem): the decoration ID is stable while the suggestion stays
active — an active step keeps the previous state's decoration ID — and the
freshly minted random ID is stored only when the previous state had none. -/
theorem c8_decoration_id_stable (char : String) (allow : SRange → Bool)
    (freshNum : Nat) (tr : Transaction) (prev : SuggestionPluginState)
    (hg : goodStateB prev = true) :
    (∀ d, prev.active = true → prev.decorationID = some d →
       (apply char allow freshNum tr prev).active = true →
       (apply char allow freshNum tr prev).decorationID = some d) ∧
    (prev.decorationID = none →
       (apply char allow freshNum tr prev).active = true →
       (apply char allow freshNum tr prev).decorationID =
         some (freshID freshNum)) := by
  constructor
  · intro d ha hd hact
    obtain ⟨hw, hsel, hcases⟩ :=
      apply_active_cases char allow freshNum tr prev hact
    rcases hcases with ⟨w, hlw, hal, hres⟩ | ⟨htxt, heq, hpa, hres⟩
    · rw [hres]
      obtain ⟨d', hd', hne⟩ := goodState_decorationID hg ha
      rw [hd] at hd'
      have hdd : d = d' := Option.some.inj hd'
      subst hdd
      simp [nextDecorationID, hd, hne]
    · rw [hres]
      exact hd
  · intro hd hact
    obtain ⟨hw, hsel, hcases⟩ :=
      apply_active_cases char allow freshNum tr prev hact
    rcases hcases with ⟨w, hlw, hal, hres⟩ | ⟨htxt, heq, hpa, hres⟩
    · rw [hres]
      simp [nextDecorationID, hd]
    · exfalso
      obtain ⟨d', hd', _⟩ := goodState_decorationID hg hpa
      rw [hd] at hd'
      exact Option.noConfusion hd'

/-- C8 (witness): across the re-activation step of the counterexample
transaction, the decoration ID "id_3" of the active previous state is
kept. -/
theorem c8_witness :
    (apply "/" allowAll 3 trC4 prevC4).decorationID = some "id_3" :=
  (c8_decoration_id_stable "/" allowAll 3 trC4 prevC4 (by decide)).1 "id_3"
    (by decide) (by decide) (by decide)

end Suggestion

namespace Suggestion

/-- The view update fires `onStart` exactly when `handleStart` holds. -/
theorem fires_onStart_iff (dom : List Element) (p n : SuggestionPluginState) :
    firesHook dom p n Hook.onStart ↔ handleStartB p n = true := by
  unfold firesHook viewUpdate
  by_cases hS : handleStartB p n = true <;>
    by_cases hC : handleChangeB p n = true <;>
      by_cases hE : handleExitB p n = true <;>
        simp [hS, hC, hE]

/-- The view update fires `onUpdate` exactly when `handleChange` holds. -/
theorem fires_onUpdate_iff (dom : List Element) (p n : SuggestionPluginState) :
    firesHook dom p n Hook.onUpdate ↔ handleChangeB p n = true := by
  unfold firesHook viewUpdate
  by_cases hS : handleStartB p n = true <;>
    by_cases hC : handleChangeB p n = true <;>
      by_cases hE : handleExitB p n = true <;>
        simp [hS, hC, hE]

/-- The view update fires `onExit` exactly when `handleExit` holds. -/
theorem fires_onExit_iff (dom : List Element) (p n : SuggestionPluginState) :
    firesHook dom p n Hook.onExit ↔ handleExitB p n = true := by
  unfold firesHook viewUpdate
  by_cases hS : handleStartB p n = true <;>
    by_cases hC : handleChangeB p n = true <;>
      by_cases hE : handleExitB p n = true <;>
        simp [hS, hC, hE]

/-- `started` holds exactly when the suggestion became active. -/
theorem startedB_iff (p n : SuggestionPluginState) :
    startedB p n = true ↔ becameActive p n := by
  simp [startedB, becameActive]

/-- `stopped` holds exactly when the suggestion became inactive. -/
theorem stoppedB_iff (p n : SuggestionPluginState) :
    stoppedB p n = true ↔ becameInactive p n := by
  simp [stoppedB, becameInactive]

/-- On good states, `moved` holds exactly when both states are active with
different range starts. -/
theorem movedB_iff {p n : SuggestionPluginState}
    (hp : goodStateB p = true) (hn : goodStateB n = true) :
    movedB p n = true ↔ movedActive p n := by
  cases hpa : p.active with
  | false => simp [movedB, movedActive, hpa]
  | true =>
    cases hna : n.active with
    | false => simp [movedB, movedActive, hpa, hna]
    | true =>
      obtain ⟨rp, hrp⟩ := goodState_range hp hpa
      obtain ⟨rn, hrn⟩ := goodState_range hn hna
      simp [movedB, movedActive, hpa, hna, rangeFromD, hrp, hrn]

/-- C2 (theorem): the renderer hooks fire exactly according to how the
plugin state changed — `onStart` iff the suggestion became active or moved;
`onUpdate` iff the query changed without the suggestion starting, stopping
or moving; `onExit` iff it became inactive or moved; and no hook fires when
the suggestion neither starts, changes nor exits. -/
theorem c2_hooks_fire_exactly (dom : List Element)
    (p n : SuggestionPluginState)
    (hp : goodStateB p = true) (hn : goodStateB n = true) :
    (firesHook dom p n Hook.onStart ↔
      (becameActive p n ∨ movedActive p n)) ∧
    (firesHook dom p n Hook.onUpdate ↔
      (p.query ≠ n.query ∧ ¬ becameActive p n ∧ ¬ becameInactive p n ∧
        ¬ movedActive p n)) ∧
    (firesHook dom p n Hook.onExit ↔
      (becameInactive p n ∨ movedActive p n)) ∧
    ((¬ (becameActive p n ∨ movedActive p n) ∧
      ¬ (p.query ≠ n.query ∧ ¬ becameActive p n ∧ ¬ becameInactive p n ∧
          ¬ movedActive p n) ∧
      ¬ (becameInactive p n ∨ movedActive p n)) →
      viewUpdate dom p n = []) := by
  have hs := startedB_iff p n
  have hp2 := stoppedB_iff p n
  have hm := movedB_iff hp hn
  have hbf : ∀ b : Bool, b = false ↔ ¬ (b = true) := by
    intro b
    cases b <;> simp
  have hstart_iff : handleStartB p n = true ↔
      (becameActive p n ∨ movedActive p n) := by
    unfold handleStartB
    rw [Bool.or_eq_true, hs, hm]
  have hexit_iff : handleExitB p n = true ↔
      (becameInactive p n ∨ movedActive p n) := by
    unfold handleExitB
    rw [Bool.or_eq_true, hp2, hm]
  have hchange_iff : handleChangeB p n = true ↔
      (p.query ≠ n.query ∧ ¬ becameActive p n ∧ ¬ becameInactive p n ∧
        ¬ movedActive p n) := by
    unfold handleChangeB changedB
    simp only [Bool.and_eq_true, Bool.not_eq_true', decide_eq_true_eq]
    rw [hbf (startedB p n), hbf (stoppedB p n), hbf (movedB p n)]
    rw [hs, hp2, hm]
    tauto
  refine ⟨?_, ?_, ?_, ?_⟩
  · rw [fires_onStart_iff dom p n, hstart_iff]
  · rw [fires_onUpdate_iff dom p n, hchange_iff]
  · rw [fires_onExit_iff dom p n, hexit_iff]
  · rintro ⟨h1, h2, h3⟩
    have hS : handleStartB p n = false := by
      rw [hbf, hstart_iff]
      exact h1
    have hC : handleChangeB p n = false := by
      rw [hbf, hchange_iff]
      exact h2
    have hE : handleExitB p n = false := by
      rw [hbf, hexit_iff]
      exact h3
    simp [viewUpdate, hS, hC, hE]

/-- C2 (witness): on the transition from the initial state to a concrete
active state, the view update fires `onStart`. -/
theorem c2_witness : firesHook [] init activeState Hook.onStart :=
  (c2_hooks_fire_exactly [] init activeState (by decide) (by decide)).1.mpr
    (Or.inl ⟨rfl, rfl⟩)

/-- C3: the decorations prop renders the decoration of the active state
with attribute value "id_7", and the DOM contains exactly that element; yet
the hook fired by the view update receives a null `decorationNode` and a
null `clientRect`, because the update reads the absent property
`decorationId` (the state declares `decorationID`) and therefore queries
the selector key "undefined". -/
theorem c3_hook_gets_null_decoration_node :
    decorations "span" "suggestion" activeState =
      some [{ dFrom := 1, dTo := 4, nodeName := "span",
              className := "suggestion", dataDecorationID := some "id_7" }] ∧
    domC3 = [{ dataDecorationID := "id_7" }] ∧
    viewUpdate domC3 init activeState =
      [(Hook.onStart,
        { range := some { rFrom := 1, rTo := 4 }, query := some "abc",
          text := some "abc", decorationNode := none,
          clientRectSome := false })] := by decide

end Suggestion
